import Mathlib

/-!
Verification of the AWSBedrock repository: a shallow embedding of the
request/response adapters (`simple_agent.py`), the keyword capability router
(`declarative_agent.py`) and the HTTP endpoint (`bedrock_api.py`), together
with proofs of the specified properties.
-/

namespace AWSBedrock

/-! ### Configuration constants (src/deploy/config.py) -/

/-- MODEL_ID from config.py (final assignment, line 21). -/
def MODEL_ID : String := "amazon.titan-text-lite-v1"

/-- MAX_TOKENS from config.py, line 33. -/
def MAX_TOKENS : ℚ := 1024

/-- TEMPERATURE from config.py, line 36. -/
def TEMPERATURE : ℚ := 0.7

/-- TOP_P from config.py, line 40. -/
def TOP_P : ℚ := 0.9

/-- DEFAULT_SYSTEM_PROMPT from config.py, line 47. -/
def DEFAULT_SYSTEM_PROMPT : String :=
  "You are a helpful AI assistant that answers user questions accurately and concisely."

/-! ### JSON values

Python dicts are modelled as association lists (insertion order preserved,
as in Python 3.7+); JSON numbers as rationals. -/

inductive JValue where
  | null : JValue
  | bool : Bool → JValue
  | num : ℚ → JValue
  | str : String → JValue
  | arr : List JValue → JValue
  | obj : List (String × JValue) → JValue

/-! ### Python string primitives -/

/-- First index at which `needle` occurs in `hay`, scanning left to right;
models the search underlying both the Python `in` operator on strings and
`str.split(sep, 1)`. -/
def findSub (hay needle : List Char) : Option Nat :=
  match hay with
  | [] => if needle.isEmpty then some 0 else none
  | c :: t => if needle.isPrefixOf (c :: t) then some 0 else (findSub t needle).map (· + 1)

/-- Python `needle in hay` for strings: substring containment. -/
def strContains (hay needle : String) : Bool :=
  (findSub hay.data needle.data).isSome

/-- Python `str.lower()`. The source only lowercases ASCII keyword text, so
ASCII case mapping (`Char.toLower`) is a faithful model here. -/
def pyLower (s : String) : String :=
  ⟨s.data.map Char.toLower⟩

/-- Python `str.split(sep, 1)`: at most one split, at the first occurrence
of `sep`; the whole string when `sep` does not occur. -/
def pySplitOnce (s sep : String) : List String :=
  match findSub s.data sep.data with
  | none => [s]
  | some i => [⟨s.data.take i⟩, ⟨s.data.drop (i + sep.data.length)⟩]

/-! ### Python runtime operations on JSON values

Operations that can raise in Python are modelled in `Except String`, the
error string naming the Python exception. -/

/-- Python `d.get(key, default)`: the value stored under `key`, or `default`
when the key is absent; raises `AttributeError` when the receiver is not a
dict. -/
def pyGet (v : JValue) (key : String) (dflt : JValue) : Except String JValue :=
  match v with
  | .obj fields => .ok ((((fields.find? (fun p => p.1 == key))).map (fun p => p.2)).getD dflt)
  | _ => .error "AttributeError: get"

/-- Python `v[0]`: first element of a list (IndexError when empty), first
character of a string (IndexError when empty), error on other types
(KeyError for a dict with no key 0, TypeError otherwise). -/
def pyIndexZero (v : JValue) : Except String JValue :=
  match v with
  | .arr [] => .error "IndexError: list index out of range"
  | .arr (x :: _) => .ok x
  | .str s => if s.isEmpty then .error "IndexError: string index out of range"
              else .ok (.str (String.singleton s.front))
  | .obj _ => .error "KeyError: 0"
  | _ => .error "TypeError: object is not subscriptable"

/-- Python `repr` of a JSON-shaped value, used by `str()` on non-string
values. Container rendering follows Python dict/list syntax; number
rendering is schematic (no claim depends on it; string escaping inside
containers is likewise elided). -/
def pyRepr : JValue → String
  | .null => "None"
  | .bool true => "True"
  | .bool false => "False"
  | .num q => toString q.num ++ (if q.den == 1 then "" else "/" ++ toString q.den)
  | .str s => "\x27" ++ s ++ "\x27"
  | .arr xs => "[" ++ String.intercalate ", " (xs.attach.map (fun x => pyRepr x.1)) ++ "]"
  | .obj fs => "\x7b" ++ String.intercalate ", "
      (fs.attach.map (fun f => "\x27" ++ f.1.1 ++ "\x27: " ++ pyRepr f.1.2)) ++ "\x7d"
decreasing_by
  · have h := List.sizeOf_lt_of_mem x.2
    simp only [JValue.arr.sizeOf_spec]
    omega
  · obtain ⟨⟨k, v⟩, hm⟩ := f
    have h := List.sizeOf_lt_of_mem hm
    simp only [Prod.mk.sizeOf_spec] at h
    simp only [JValue.obj.sizeOf_spec]
    omega

/-- Python `str(v)`: the string itself for strings, `repr` otherwise. -/
def pyStr : JValue → String
  | .str s => s
  | v => pyRepr v

/-- Field lookup on a JSON object, used to state properties of payloads:
`some value` when the field is present, `none` otherwise (or when the value
is not an object). -/
def jLookup (v : JValue) (key : String) : Option JValue :=
  match v with
  | .obj fields => ((fields.find? (fun p => p.1 == key))).map (fun p => p.2)
  | _ => none

/-! ### Request adapter: `SimpleBedrockAgent._format_prompt_for_model`
(src/simple_agent.py, lines 89 to 179)

`system_prompt` is an optional string; the Python guard `if system_prompt:`
is truthiness, so an empty string behaves like an absent prompt. -/

def formatPromptForModel (modelId userInput : String) (systemPrompt : Option String) : JValue :=
  if strContains modelId "anthropic.claude" then
    let userMsg : JValue := .obj [("role", .str "user"), ("content", .str userInput)]
    let messages : List JValue :=
      match systemPrompt with
      | some sp =>
          if sp == "" then [userMsg]
          else [.obj [("role", .str "system"), ("content", .str sp)], userMsg]
      | none => [userMsg]
    .obj [("anthropic_version", .str "bedrock-2023-05-31"),
          ("max_tokens", .num MAX_TOKENS),
          ("temperature", .num TEMPERATURE),
          ("top_p", .num TOP_P),
          ("messages", .arr messages)]
  else if strContains modelId "amazon.titan" then
    let prompt : String :=
      match systemPrompt with
      | some sp =>
          if sp == "" then "Human: " ++ userInput ++ "\n\nAssistant:"
          else sp ++ "\n\nHuman: " ++ userInput ++ "\n\nAssistant:"
      | none => "Human: " ++ userInput ++ "\n\nAssistant:"
    .obj [("inputText", .str prompt),
          ("textGenerationConfig", .obj
            [("maxTokenCount", .num MAX_TOKENS),
             ("temperature", .num TEMPERATURE),
             ("topP", .num TOP_P),
             ("stopSequences", .arr [])])]
  else if strContains modelId "meta.llama" then
    let prompt : String :=
      match systemPrompt with
      | some sp =>
          if sp == "" then "<user>\n" ++ userInput ++ "\n</user>\n\n<assistant>"
          else "<system>\n" ++ sp ++ "\n</system>\n\n<user>\n" ++ userInput ++ "\n</user>\n\n<assistant>"
      | none => "<user>\n" ++ userInput ++ "\n</user>\n\n<assistant>"
    .obj [("prompt", .str prompt),
          ("max_gen_len", .num MAX_TOKENS),
          ("temperature", .num TEMPERATURE),
          ("top_p", .num TOP_P)]
  else if strContains modelId "mistral" then
    let userMsg : JValue := .obj [("role", .str "user"), ("content", .str userInput)]
    let messages : List JValue :=
      match systemPrompt with
      | some sp =>
          if sp == "" then [userMsg]
          else [.obj [("role", .str "system"), ("content", .str sp)], userMsg]
      | none => [userMsg]
    .obj [("messages", .arr messages),
          ("max_tokens", .num MAX_TOKENS),
          ("temperature", .num TEMPERATURE),
          ("top_p", .num TOP_P)]
  else
    .obj [("prompt", .str userInput),
          ("max_tokens", .num MAX_TOKENS),
          ("temperature", .num TEMPERATURE),
          ("top_p", .num TOP_P)]

/-! ### Response adapter: `SimpleBedrockAgent._extract_response_from_model`
(src/simple_agent.py, lines 181 to 197) -/

def extractResponseFromModel (modelId : String) (body : JValue) : Except String JValue :=
  if strContains modelId "anthropic.claude" then do
    let c ← pyGet body "content" (.arr [.obj []])
    let e ← pyIndexZero c
    pyGet e "text" (.str "")
  else if strContains modelId "amazon.titan" then do
    let r ← pyGet body "results" (.arr [.obj []])
    let e ← pyIndexZero r
    pyGet e "outputText" (.str "")
  else if strContains modelId "meta.llama" then
    pyGet body "generation" (.str "")
  else
    .ok (.str (pyStr body))

/-- Modelled from the spec: `encode_sample_response(model_id, x)` builds the
documented response shape of the profile selected by `model_id` with
embedded text `x` (spec section 4.2 and testable property 3); this helper
exists only in the spec, not in the source. -/
def encodeSampleResponse (modelId x : String) : JValue :=
  if strContains modelId "anthropic.claude" then
    .obj [("content", .arr [.obj [("text", .str x)]])]
  else if strContains modelId "amazon.titan" then
    .obj [("results", .arr [.obj [("outputText", .str x)]])]
  else if strContains modelId "meta.llama" then
    .obj [("generation", .str x)]
  else
    .str x

/-! ### Capability router: `DeclarativeAgent` (src/declarative_agent.py)

The underlying `SimpleBedrockAgent.invoke` performs a remote call; it is
modelled as an oracle of type `String → String → Except String String`
(prompt and system prompt in, model text out, `error` when the call raises).
The agent's `self.system_prompt` is `DEFAULT_SYSTEM_PROMPT` (line 33). -/

/-- The result type of the remote model call as seen by a handler. -/
abbrev Invoke := String → String → Except String String

/-- `DeclarativeAgent._determine_capability` (lines 44 to 72). -/
def determineCapability (userInput : String) : String :=
  let text := pyLower userInput
  if ["summarize", "summary", "summarization"].any (fun phrase => strContains text phrase) then
    "summarize_text"
  else if ["translate", "translation", "in spanish", "in french"].any
      (fun phrase => strContains text phrase) then
    "translate_text"
  else if ["code", "function", "script", "program", "programming"].any
      (fun phrase => strContains text phrase) then
    "generate_code"
  else
    "answer_question"

/-- Text-to-summarize extraction in `DeclarativeAgent._handle_summarization`
(lines 82 to 90): split the lowercased input at the first "summarize" and
strip the remainder, else use the whole input. -/
def textToSummarize (userInput : String) : String :=
  if strContains (pyLower userInput) "summarize" then
    let parts := pySplitOnce (pyLower userInput) "summarize"
    if h : 1 < parts.length then (parts.get ⟨1, h⟩).trim
    else userInput
  else userInput

/-- The prompt built by `_handle_summarization` (line 94). -/
def summarizationPrompt (userInput : String) : String :=
  "Please summarize the following text:\n\n" ++ textToSummarize userInput

/-- `DeclarativeAgent._handle_summarization` (lines 79 to 96). -/
def handleSummarization (invoke : Invoke) (userInput : String) : Except String String :=
  invoke (summarizationPrompt userInput)
    (DEFAULT_SYSTEM_PROMPT ++
      "\nYou are tasked with summarizing text. Create a concise summary that captures the main points.")

/-- Target-language detection in `DeclarativeAgent._handle_translation`
(lines 106 to 113): default "Spanish", then an if/elif chain checking
"in spanish", "in french", "in german" against the lowercased input. -/
def translationTargetLanguage (userInput : String) : String :=
  let targetLanguage := "Spanish"
  if strContains (pyLower userInput) "in spanish" then "Spanish"
  else if strContains (pyLower userInput) "in french" then "French"
  else if strContains (pyLower userInput) "in german" then "German"
  else targetLanguage

/-- The prompt built by `_handle_translation` (line 115): wraps the original
(not extracted) input with the target language name. -/
def translationPrompt (userInput : String) : String :=
  "Translate the following text to " ++ translationTargetLanguage userInput ++ ":\n\n" ++ userInput

/-- `DeclarativeAgent._handle_translation` (lines 98 to 117). -/
def handleTranslation (invoke : Invoke) (userInput : String) : Except String String :=
  invoke (translationPrompt userInput)
    (DEFAULT_SYSTEM_PROMPT ++
      "\nYou are a skilled translator. Translate the text accurately while preserving meaning.")

/-- `DeclarativeAgent._handle_general_question` (lines 74 to 77). -/
def handleGeneralQuestion (invoke : Invoke) (userInput : String) : Except String String :=
  invoke userInput
    (DEFAULT_SYSTEM_PROMPT ++ "\nAnswer the user\x27s question accurately and concisely.")

/-- `DeclarativeAgent._handle_code_generation` (lines 119 to 125). -/
def handleCodeGeneration (invoke : Invoke) (userInput : String) : Except String String :=
  invoke ("Generate code for the following requirement:\n\n" ++ userInput ++
      "\n\nPlease include comments and explain any non-obvious parts.")
    (DEFAULT_SYSTEM_PROMPT ++
      "\nYou are an expert programmer. Generate clean, efficient, and well-commented code based on the requirements.")

/-- `DeclarativeAgent._handle_fallback` (lines 127 to 130). -/
def handleFallback (invoke : Invoke) (userInput : String) : Except String String :=
  invoke userInput (DEFAULT_SYSTEM_PROMPT ++ "\nRespond helpfully to the user\x27s input.")

/-- The `self.capabilities` handler table (lines 36 to 42). -/
def capabilities (invoke : Invoke) : List (String × (String → Except String String)) :=
  [("answer_question", handleGeneralQuestion invoke),
   ("summarize_text", handleSummarization invoke),
   ("translate_text", handleTranslation invoke),
   ("generate_code", handleCodeGeneration invoke),
   ("fallback", handleFallback invoke)]

/-- The body of the `try` block in `DeclarativeAgent.process` (lines 142 to
152): classify, look up the handler (falling back to the fallback handler),
run it. An `error` value is an exception escaping the `try` body. -/
def processCore (invoke : Invoke) (userInput : String) : Except String String :=
  let capabilityName := determineCapability userInput
  let handler :=
    (((capabilities invoke).find? (fun p => p.1 == capabilityName)).map (fun p => p.2)).getD
      (handleFallback invoke)
  handler userInput

/-- `DeclarativeAgent.process` (lines 132 to 156): the `except` clause
converts any exception into a plain text message. -/
def process (invoke : Invoke) (userInput : String) : String :=
  match processCore invoke userInput with
  | .ok response => response
  | .error e => "I encountered an error while processing your request: " ++ e

/-! ### HTTP endpoint: `invoke_simple_agent` (src/bedrock_api.py, lines 25
to 44)

The request body is modelled as `Option (List (String × JValue))`: `none`
when `request.json` is `None`, otherwise the JSON object (non-object JSON
bodies are outside the scope of the claims). The agent call is an oracle
`JValue → JValue → Except String JValue`. Flask `(jsonify(...), code)`
responses are modelled as a status/body pair. -/

/-- `user_input = data['input']` (line 33); only ever evaluated after the
presence check, so the `.null` default is unreachable. -/
def requestUserInput (fields : List (String × JValue)) : JValue :=
  (((fields.find? (fun p => p.1 == "input")).map (fun p => p.2)).getD .null)

/-- `system_prompt = data.get('system_prompt', DEFAULT_SYSTEM_PROMPT)`
(line 34). -/
def requestSystemPrompt (fields : List (String × JValue)) : JValue :=
  (((fields.find? (fun p => p.1 == "system_prompt")).map (fun p => p.2)).getD
    (.str DEFAULT_SYSTEM_PROMPT))

/-- `invoke_simple_agent` (lines 25 to 44). `if not data or 'input' not in
data` is Python truthiness: an absent body or an empty object is falsy. -/
def invokeSimpleAgentRoute (data : Option (List (String × JValue)))
    (invoke : JValue → JValue → Except String JValue) : Nat × JValue :=
  match data with
  | none => (400, .obj [("error", .str "Missing required \x27input\x27 field")])
  | some fields =>
    if fields.isEmpty || !(fields.any (fun p => p.1 == "input")) then
      (400, .obj [("error", .str "Missing required \x27input\x27 field")])
    else
      match invoke (requestUserInput fields) (requestSystemPrompt fields) with
      | .ok response => (200, .obj [("response", response), ("model", .str MODEL_ID)])
      | .error e => (500, .obj [("error", .str e)])

/-! ### Lemmas about the substring search -/

/-- A successful Boolean prefix test yields an append decomposition. -/
theorem exists_append_of_isPrefixOf {l₁ l₂ : List Char}
    (h : l₁.isPrefixOf l₂ = true) : ∃ r, l₂ = l₁ ++ r := by
  induction l₁ generalizing l₂ with
  | nil => exact ⟨l₂, rfl⟩
  | cons a as ih =>
    cases l₂ with
    | nil => simp [List.isPrefixOf] at h
    | cons b bs =>
      simp only [List.isPrefixOf, Bool.and_eq_true, beq_iff_eq] at h
      obtain ⟨rfl, h2⟩ := h
      obtain ⟨r, rfl⟩ := ih h2
      exact ⟨r, rfl⟩

/-- The Boolean prefix test succeeds on any extension. -/
theorem isPrefixOf_append_self (l₁ r : List Char) :
    l₁.isPrefixOf (l₁ ++ r) = true := by
  induction l₁ with
  | nil => simp [List.isPrefixOf]
  | cons a as ih => simp [List.isPrefixOf, ih]

/-- A successful search decomposes the haystack around the leftmost
occurrence of the needle: the part before it has the reported length and
contains no occurrence of its own. -/
theorem findSub_eq_some {hay needle : List Char} {i : Nat} (hne : needle ≠ [])
    (h : findSub hay needle = some i) :
    ∃ a rest, hay = a ++ needle ++ rest ∧ a.length = i ∧ findSub a needle = none := by
  induction hay generalizing i with
  | nil =>
    rw [findSub] at h
    simp [List.isEmpty_iff, hne] at h
  | cons c t ih =>
    rw [findSub] at h
    by_cases hp : needle.isPrefixOf (c :: t) = true
    · rw [if_pos hp] at h
      obtain rfl : (0 : Nat) = i := by injection h
      obtain ⟨r, hr⟩ := exists_append_of_isPrefixOf hp
      refine ⟨[], r, ?_, rfl, ?_⟩
      · simpa using hr
      · rw [findSub]
        simp [List.isEmpty_iff, hne]
    · rw [if_neg hp] at h
      obtain ⟨j, hj, rfl⟩ : ∃ j, findSub t needle = some j ∧ j + 1 = i := by
        cases hfs : findSub t needle with
        | none => rw [hfs] at h; simp at h
        | some j => rw [hfs] at h; simp at h; exact ⟨j, rfl, h⟩
      obtain ⟨a, rest, hdec, hlen, hnone⟩ := ih hj
      refine ⟨c :: a, rest, by simp [hdec], by simp [hlen], ?_⟩
      rw [findSub]
      have hp2 : needle.isPrefixOf (c :: a) = false := by
        by_contra hc
        rw [Bool.not_eq_false] at hc
        obtain ⟨r, hr⟩ := exists_append_of_isPrefixOf hc
        apply hp
        have hct : c :: t = (c :: a) ++ (needle ++ rest) := by simp [hdec]
        rw [hct, hr, List.append_assoc]
        exact isPrefixOf_append_self _ _
      rw [if_neg (by simp [hp2]), hnone]
      rfl

/-- Specification of the one-shot split at the first occurrence of a
non-empty separator that does occur: it produces the part before the first
occurrence (which is free of the separator) and the remainder. -/
theorem pySplitOnce_spec {s sep : String} (hne : sep.data ≠ [])
    (h : strContains s sep = true) :
    ∃ a b : String, s = a ++ sep ++ b ∧ strContains a sep = false ∧
      pySplitOnce s sep = [a, b] := by
  rw [strContains, Option.isSome_iff_exists] at h
  obtain ⟨i, hi⟩ := h
  obtain ⟨a, rest, hdec, hlen, hnone⟩ := findSub_eq_some hne hi
  refine ⟨⟨a⟩, ⟨rest⟩, ?_, ?_, ?_⟩
  · apply String.ext
    simpa [String.data_append] using hdec
  · simp [strContains, hnone]
  · rw [pySplitOnce, hi]
    have ht : s.data.take i = a := by
      rw [hdec, ← hlen, List.append_assoc]
      exact List.take_left a (sep.data ++ rest)
    have hd : s.data.drop (i + sep.data.length) = rest := by
      rw [hdec, ← hlen]
      have : a.length + sep.data.length = (a ++ sep.data).length := by
        simp [List.length_append]
      rw [this]
      exact List.drop_left (a ++ sep.data) rest
    show [(⟨s.data.take i⟩ : String), ⟨s.data.drop (i + sep.data.length)⟩] = [⟨a⟩, ⟨rest⟩]
    rw [ht, hd]

/-! ### Claim theorems -/

/-- Claim C1: for every model family profile (Claude, Titan, Llama, generic
fallback), decoding the documented sample response shape with embedded text
`x` returns exactly `x` — stated for every model id at once, since
`encodeSampleResponse` selects the profile exactly as the decoder does. -/
theorem c1_decode_roundtrip (mid x : String) :
    extractResponseFromModel mid (encodeSampleResponse mid x) = .ok (.str x) := by
  unfold extractResponseFromModel encodeSampleResponse
  cases h1 : strContains mid "anthropic.claude" <;>
    cases h2 : strContains mid "amazon.titan" <;>
      cases h3 : strContains mid "meta.llama" <;>
        rfl

/-- Claim C2, counterexample: a model id containing "claude" but not
"anthropic.claude" is encoded by the generic branch (no anthropic_version
field), and an empty system prompt is falsy in Python, so no system message
is prepended. -/
theorem c2_counterexample :
    jLookup (formatPromptForModel "claude" "hi" none) "anthropic_version" = none ∧
    jLookup (formatPromptForModel "anthropic.claude-v2" "hi" (some "")) "messages" =
      some (.arr [.obj [("role", .str "user"), ("content", .str "hi")]]) := by
  exact ⟨rfl, rfl⟩

/-- Claim C2 as amended: for any model id containing "anthropic.claude" the
payload has an anthropic_version field and a messages array whose last
entry has role "user" and content equal to the user input; a non-empty
system prompt is prepended as a system-role message. -/
theorem c2_claude_payload (mid u : String) (sp : Option String)
    (h : strContains mid "anthropic.claude" = true) :
    jLookup (formatPromptForModel mid u sp) "anthropic_version" =
      some (.str "bedrock-2023-05-31") ∧
    ∃ msgs : List JValue,
      jLookup (formatPromptForModel mid u sp) "messages" = some (.arr msgs) ∧
      msgs.getLast? = some (.obj [("role", .str "user"), ("content", .str u)]) ∧
      ∀ s : String, sp = some s → s ≠ "" →
        msgs = [.obj [("role", .str "system"), ("content", .str s)],
                .obj [("role", .str "user"), ("content", .str u)]] := by
  unfold formatPromptForModel
  rw [if_pos h]
  cases sp with
  | none =>
    refine ⟨by rfl, [.obj [("role", .str "user"), ("content", .str u)]], by rfl, by rfl, ?_⟩
    intro s hs
    exact absurd hs (by simp)
  | some s =>
    by_cases hs : s = ""
    · subst hs
      refine ⟨by rfl, [.obj [("role", .str "user"), ("content", .str u)]], by rfl, by rfl, ?_⟩
      intro s' hs' hne
      rw [Option.some_inj] at hs'
      exact absurd hs'.symm hne
    · have hbeq : (s == "") = false := by simp [hs]
      refine ⟨?_, [.obj [("role", .str "system"), ("content", .str s)],
                   .obj [("role", .str "user"), ("content", .str u)]], ?_, ?_, ?_⟩
      · simp only [hbeq]
        rfl
      · simp only [hbeq]
        rfl
      · rfl
      · intro s' hs' _
        rw [Option.some_inj] at hs'
        rw [hs']

/-- Witness for c2_claude_payload at a concrete Claude model id. -/
theorem c2_claude_payload_witness :
    jLookup (formatPromptForModel "anthropic.claude-v2" "hi" (some "Be brief"))
      "anthropic_version" = some (.str "bedrock-2023-05-31") ∧
    ∃ msgs : List JValue,
      jLookup (formatPromptForModel "anthropic.claude-v2" "hi" (some "Be brief")) "messages" =
        some (.arr msgs) ∧
      msgs.getLast? = some (.obj [("role", .str "user"), ("content", .str "hi")]) ∧
      ∀ s : String, (some "Be brief" : Option String) = some s → s ≠ "" →
        msgs = [.obj [("role", .str "system"), ("content", .str s)],
                .obj [("role", .str "user"), ("content", .str "hi")]] :=
  c2_claude_payload "anthropic.claude-v2" "hi" (some "Be brief") (by decide)

/-- Claim C3, counterexample: the decoder is not total — a titan response
whose results field is present but an empty array makes the `[0]` indexing
raise IndexError, rather than yielding the empty string. -/
theorem c3_counterexample :
    extractResponseFromModel "amazon.titan-text-lite-v1" (.obj [("results", .arr [])]) =
      .error "IndexError: list index out of range" := by
  rfl

/-- Claim C3 as amended: an entirely absent expected field degrades to the
empty string rather than failing — decoding the empty object succeeds for
every model id, yields "" for each of the three text-extracting families,
and in particular decode("amazon.titan...", empty object) = "". (Totality
over all payloads fails: see the counterexample with an empty results
array.) -/
theorem c3_missing_field_decode :
    (∀ mid : String, ∃ v, extractResponseFromModel mid (.obj []) = .ok v) ∧
    (∀ mid : String, strContains mid "anthropic.claude" = true →
      extractResponseFromModel mid (.obj []) = .ok (.str "")) ∧
    (∀ mid : String, strContains mid "anthropic.claude" = false →
      strContains mid "amazon.titan" = true →
      extractResponseFromModel mid (.obj []) = .ok (.str "")) ∧
    (∀ mid : String, strContains mid "anthropic.claude" = false →
      strContains mid "amazon.titan" = false →
      strContains mid "meta.llama" = true →
      extractResponseFromModel mid (.obj []) = .ok (.str "")) ∧
    extractResponseFromModel "amazon.titan-text-lite-v1" (.obj []) = .ok (.str "") := by
  refine ⟨?_, ?_, ?_, ?_, by rfl⟩
  · intro mid
    unfold extractResponseFromModel
    cases h1 : strContains mid "anthropic.claude" <;>
      cases h2 : strContains mid "amazon.titan" <;>
        cases h3 : strContains mid "meta.llama" <;>
          exact ⟨_, rfl⟩
  · intro mid h1
    unfold extractResponseFromModel
    rw [if_pos h1]
    rfl
  · intro mid h1 h2
    unfold extractResponseFromModel
    rw [if_neg (by simp [h1]), if_pos h2]
    rfl
  · intro mid h1 h2 h3
    unfold extractResponseFromModel
    rw [if_neg (by simp [h1]), if_neg (by simp [h2]), if_pos h3]
    rfl

/-- Witness for c3_missing_field_decode at concrete model ids. -/
theorem c3_missing_field_decode_witness :
    (∃ v, extractResponseFromModel "other.model" (.obj []) = .ok v) ∧
    extractResponseFromModel "anthropic.claude-v2" (.obj []) = .ok (.str "") ∧
    extractResponseFromModel "amazon.titan-text-express-v1" (.obj []) = .ok (.str "") ∧
    extractResponseFromModel "meta.llama2-13b-chat-v1" (.obj []) = .ok (.str "") :=
  ⟨c3_missing_field_decode.1 "other.model",
   c3_missing_field_decode.2.1 "anthropic.claude-v2" (by decide),
   c3_missing_field_decode.2.2.1 "amazon.titan-text-express-v1" (by decide) (by decide),
   c3_missing_field_decode.2.2.2.1 "meta.llama2-13b-chat-v1" (by decide) (by decide) (by decide)⟩

/-- Claim C4, counterexample: a model id containing "titan" but not
"amazon.titan" is encoded by the generic branch, which has no inputText
field at all. -/
theorem c4_counterexample :
    jLookup (formatPromptForModel "titan" "hi" none) "inputText" = none := by
  rfl

/-- Claim C4 as amended: for a model id containing "amazon.titan" (and not
"anthropic.claude", which is checked first), encoding with no system prompt
yields inputText "Human: {input}\n\nAssistant:" with no leading system
block, wrapped with the textGenerationConfig of maxTokenCount, temperature,
topP and empty stopSequences. -/
theorem c4_titan_payload (mid u : String)
    (h1 : strContains mid "anthropic.claude" = false)
    (h2 : strContains mid "amazon.titan" = true) :
    formatPromptForModel mid u none = .obj
      [("inputText", .str ("Human: " ++ u ++ "\n\nAssistant:")),
       ("textGenerationConfig", .obj
         [("maxTokenCount", .num MAX_TOKENS),
          ("temperature", .num TEMPERATURE),
          ("topP", .num TOP_P),
          ("stopSequences", .arr [])])] := by
  unfold formatPromptForModel
  rw [if_neg (by simp [h1]), if_pos h2]

/-- Witness for c4_titan_payload at the configured model id and input "hi". -/
theorem c4_titan_payload_witness :
    formatPromptForModel "amazon.titan-text-lite-v1" "hi" none = .obj
      [("inputText", .str ("Human: " ++ "hi" ++ "\n\nAssistant:")),
       ("textGenerationConfig", .obj
         [("maxTokenCount", .num MAX_TOKENS),
          ("temperature", .num TEMPERATURE),
          ("topP", .num TOP_P),
          ("stopSequences", .arr [])])] :=
  c4_titan_payload "amazon.titan-text-lite-v1" "hi" (by decide) (by decide)

/-- Claim C5, counterexample: an input containing both "in french" and
"in german" resolves to French, not German — the if/elif chain is
first-match-wins, not last-match-wins. -/
theorem c5_counterexample :
    translationTargetLanguage "translate hello in french in german" = "French" ∧
    translationTargetLanguage "translate hello in french in german" ≠ "German" := by
  exact ⟨by rfl, by decide⟩

/-- Claim C5 as amended: the target language defaults to "Spanish" and the
chain checks "in spanish", then "in french", then "in german" with
first-match-wins precedence; in particular any input containing "in french"
(and not "in spanish") resolves to French even when "in german" is also
present, and an input matching none of the phrases resolves to the Spanish
default. -/
theorem c5_translation_precedence (u : String) :
    (strContains (pyLower u) "in spanish" = false →
      strContains (pyLower u) "in french" = true →
      translationTargetLanguage u = "French") ∧
    (strContains (pyLower u) "in spanish" = false →
      strContains (pyLower u) "in french" = false →
      strContains (pyLower u) "in german" = false →
      translationTargetLanguage u = "Spanish") := by
  constructor
  · intro h1 h2
    unfold translationTargetLanguage
    rw [if_neg (by simp [h1]), if_pos h2]
  · intro h1 h2 h3
    unfold translationTargetLanguage
    rw [if_neg (by simp [h1]), if_neg (by simp [h2]), if_neg (by simp [h3])]

/-- Witness for c5_translation_precedence at concrete inputs. -/
theorem c5_translation_precedence_witness :
    translationTargetLanguage "translate hello in french in german" = "French" ∧
    translationTargetLanguage "translate hello please" = "Spanish" :=
  ⟨(c5_translation_precedence "translate hello in french in german").1 (by decide) (by decide),
   (c5_translation_precedence "translate hello please").2 (by decide) (by decide) (by decide)⟩

/-- Claim C6: classification is a first-match-wins, case-insensitive
substring test in the order Summarize, Translate, GenerateCode, else
AnswerQuestion, together with the four concrete classifications named by
the claim (and the French target for the translate example). -/
theorem c6_classification :
    (∀ u : String,
      (["summarize", "summary", "summarization"].any
        (fun phrase => strContains (pyLower u) phrase)) = true →
      determineCapability u = "summarize_text") ∧
    (∀ u : String,
      (["summarize", "summary", "summarization"].any
        (fun phrase => strContains (pyLower u) phrase)) = false →
      (["translate", "translation", "in spanish", "in french"].any
        (fun phrase => strContains (pyLower u) phrase)) = true →
      determineCapability u = "translate_text") ∧
    (∀ u : String,
      (["summarize", "summary", "summarization"].any
        (fun phrase => strContains (pyLower u) phrase)) = false →
      (["translate", "translation", "in spanish", "in french"].any
        (fun phrase => strContains (pyLower u) phrase)) = false →
      (["code", "function", "script", "program", "programming"].any
        (fun phrase => strContains (pyLower u) phrase)) = true →
      determineCapability u = "generate_code") ∧
    (∀ u : String,
      (["summarize", "summary", "summarization"].any
        (fun phrase => strContains (pyLower u) phrase)) = false →
      (["translate", "translation", "in spanish", "in french"].any
        (fun phrase => strContains (pyLower u) phrase)) = false →
      (["code", "function", "script", "program", "programming"].any
        (fun phrase => strContains (pyLower u) phrase)) = false →
      determineCapability u = "answer_question") ∧
    determineCapability "Please summarize this article" = "summarize_text" ∧
    determineCapability "translate hello in french" = "translate_text" ∧
    translationTargetLanguage "translate hello in french" = "French" ∧
    determineCapability "write a function to sort a list" = "generate_code" ∧
    determineCapability "what is the capital of France" = "answer_question" := by
  refine ⟨?_, ?_, ?_, ?_, by rfl, by rfl, by rfl, by rfl, by rfl⟩
  · intro u h1
    unfold determineCapability
    rw [if_pos h1]
  · intro u h1 h2
    unfold determineCapability
    rw [if_neg (by simp [h1]), if_pos h2]
  · intro u h1 h2 h3
    unfold determineCapability
    rw [if_neg (by simp [h1]), if_neg (by simp [h2]), if_pos h3]
  · intro u h1 h2 h3
    unfold determineCapability
    rw [if_neg (by simp [h1]), if_neg (by simp [h2]), if_neg (by simp [h3])]

/-- Witness for c6_classification, discharging the keyword hypotheses at
concrete inputs. -/
theorem c6_classification_witness :
    determineCapability "give me a summary" = "summarize_text" ∧
    determineCapability "say hello in spanish" = "translate_text" ∧
    determineCapability "write a python script" = "generate_code" ∧
    determineCapability "how tall is the Eiffel tower" = "answer_question" :=
  ⟨c6_classification.1 "give me a summary" (by decide),
   c6_classification.2.1 "say hello in spanish" (by decide) (by decide),
   c6_classification.2.2.1 "write a python script" (by decide) (by decide) (by decide),
   c6_classification.2.2.2.1 "how tall is the Eiffel tower"
     (by decide) (by decide) (by decide)⟩

/-- Claim C7: when the lowercased input contains "summarize", the text to
summarize is the (whitespace-stripped) remainder after the first occurrence
of "summarize" in the lowercased input, and the prompt is the fixed
template wrapping it; otherwise the whole input is wrapped. -/
theorem c7_summarization_prompt (u : String) :
    (strContains (pyLower u) "summarize" = true →
      ∃ a b : String, pyLower u = a ++ "summarize" ++ b ∧
        strContains a "summarize" = false ∧
        summarizationPrompt u = "Please summarize the following text:\n\n" ++ b.trim) ∧
    (strContains (pyLower u) "summarize" = false →
      summarizationPrompt u = "Please summarize the following text:\n\n" ++ u) := by
  constructor
  · intro h
    obtain ⟨a, b, hdec, hfree, hsplit⟩ := pySplitOnce_spec (by decide) h
    refine ⟨a, b, hdec, hfree, ?_⟩
    unfold summarizationPrompt textToSummarize
    rw [if_pos h, hsplit]
    rfl
  · intro h
    unfold summarizationPrompt textToSummarize
    rw [if_neg (by simp [h])]

/-- Witness for c7_summarization_prompt at a concrete input for each
branch. -/
theorem c7_summarization_prompt_witness :
    (∃ a b : String,
      pyLower "Please summarize this article" = a ++ "summarize" ++ b ∧
      strContains a "summarize" = false ∧
      summarizationPrompt "Please summarize this article" =
        "Please summarize the following text:\n\n" ++ b.trim) ∧
    summarizationPrompt "shorten this" =
      "Please summarize the following text:\n\n" ++ "shorten this" :=
  ⟨(c7_summarization_prompt "Please summarize this article").1 (by decide),
   (c7_summarization_prompt "shorten this").2 (by decide)⟩

/-- Claim C8: the router never propagates an exception — whatever the
classification and handler (hence the underlying model call) do, `process`
either returns the handler result or converts the escaped exception into
the plain text error message. -/
theorem c8_process_never_raises (invoke : Invoke) (u : String) :
    (∃ r, processCore invoke u = .ok r ∧ process invoke u = r) ∨
    (∃ e, processCore invoke u = .error e ∧
      process invoke u = "I encountered an error while processing your request: " ++ e) := by
  cases h : processCore invoke u with
  | ok r =>
    left
    exact ⟨r, rfl, by unfold process; rw [h]⟩
  | error e =>
    right
    exact ⟨e, rfl, by unfold process; rw [h]⟩

/-- Claim C9: the simple-agent endpoint returns 400 with the fixed error
body when the JSON body is absent or lacks an "input" field, 200 with
response and model on success, and 500 with the exception message when the
agent call raises. -/
theorem c9_endpoint_responses :
    (∀ invoke, invokeSimpleAgentRoute none invoke =
      (400, .obj [("error", .str "Missing required \x27input\x27 field")])) ∧
    (∀ fields invoke, (fields.any (fun p => p.1 == "input")) = false →
      invokeSimpleAgentRoute (some fields) invoke =
        (400, .obj [("error", .str "Missing required \x27input\x27 field")])) ∧
    (∀ fields invoke r, (fields.any (fun p => p.1 == "input")) = true →
      invoke (requestUserInput fields) (requestSystemPrompt fields) = .ok r →
      invokeSimpleAgentRoute (some fields) invoke =
        (200, .obj [("response", r), ("model", .str MODEL_ID)])) ∧
    (∀ fields invoke e, (fields.any (fun p => p.1 == "input")) = true →
      invoke (requestUserInput fields) (requestSystemPrompt fields) = .error e →
      invokeSimpleAgentRoute (some fields) invoke = (500, .obj [("error", .str e)])) := by
  refine ⟨fun invoke => rfl, ?_, ?_, ?_⟩
  · intro fields invoke h
    rw [invokeSimpleAgentRoute, if_pos (by simp [h])]
  · intro fields invoke r h hok
    rw [invokeSimpleAgentRoute, if_neg ?_, hok]
    cases fields with
    | nil => simp at h
    | cons f fs => simp [h]
  · intro fields invoke e h herr
    rw [invokeSimpleAgentRoute, if_neg ?_, herr]
    cases fields with
    | nil => simp at h
    | cons f fs => simp [h]

/-- Witness for c9_endpoint_responses: a body missing input, a successful
call, and a raising call. -/
theorem c9_endpoint_responses_witness :
    invokeSimpleAgentRoute (some [("other", .str "x")]) (fun _ _ => .ok (.str "hello")) =
      (400, .obj [("error", .str "Missing required \x27input\x27 field")]) ∧
    invokeSimpleAgentRoute (some [("input", .str "hi")]) (fun _ _ => .ok (.str "hello")) =
      (200, .obj [("response", .str "hello"), ("model", .str MODEL_ID)]) ∧
    invokeSimpleAgentRoute (some [("input", .str "hi")]) (fun _ _ => .error "boom") =
      (500, .obj [("error", .str "boom")]) :=
  ⟨c9_endpoint_responses.2.1 [("other", .str "x")] (fun _ _ => .ok (.str "hello")) (by decide),
   c9_endpoint_responses.2.2.1 [("input", .str "hi")] (fun _ _ => .ok (.str "hello"))
     (.str "hello") (by decide) rfl,
   c9_endpoint_responses.2.2.2 [("input", .str "hi")] (fun _ _ => .error "boom")
     "boom" (by decide) rfl⟩

/-- Claim C10: when the body has "input" but no "system_prompt" key, the
endpoint resolves the system prompt to DEFAULT_SYSTEM_PROMPT, and the
response depends on the agent call only through its behaviour at that
default system prompt — the no-system-prompt encoding branches are never
reached through the HTTP interface. -/
theorem c10_default_system_prompt (fields : List (String × JValue))
    (h1 : (fields.any (fun p => p.1 == "input")) = true)
    (h2 : (fields.any (fun p => p.1 == "system_prompt")) = false) :
    requestSystemPrompt fields = .str DEFAULT_SYSTEM_PROMPT ∧
    ∀ invoke invoke' : JValue → JValue → Except String JValue,
      (∀ i, invoke i (.str DEFAULT_SYSTEM_PROMPT) = invoke' i (.str DEFAULT_SYSTEM_PROMPT)) →
      invokeSimpleAgentRoute (some fields) invoke =
        invokeSimpleAgentRoute (some fields) invoke' := by
  have hfind : fields.find? (fun p => p.1 == "system_prompt") = none := by
    rw [List.find?_eq_none]
    intro p hp
    intro hbeq
    have hany : fields.any (fun q => q.1 == "system_prompt") = true :=
      List.any_eq_true.mpr ⟨p, hp, hbeq⟩
    rw [h2] at hany
    exact Bool.false_ne_true hany
  have hsp : requestSystemPrompt fields = .str DEFAULT_SYSTEM_PROMPT := by
    rw [requestSystemPrompt, hfind]
    rfl
  refine ⟨hsp, ?_⟩
  intro invoke invoke' hpt
  have hne : (fields.isEmpty || !(fields.any (fun p => p.1 == "input"))) = false := by
    cases fields with
    | nil => simp at h1
    | cons f fs => simp [h1]
  rw [invokeSimpleAgentRoute, invokeSimpleAgentRoute, if_neg (by simp [hne]),
    if_neg (by simp [hne]), hsp, hpt (requestUserInput fields)]

/-- Witness for c10_default_system_prompt at a concrete body and a pair of
oracles that agree at the default system prompt. -/
theorem c10_default_system_prompt_witness :
    requestSystemPrompt [("input", .str "hi")] = .str DEFAULT_SYSTEM_PROMPT ∧
    invokeSimpleAgentRoute (some [("input", .str "hi")])
        (fun _ _ => .ok (.str "ok")) =
      invokeSimpleAgentRoute (some [("input", .str "hi")])
        (fun _ sp =>
          match sp with
          | .str s => if s == DEFAULT_SYSTEM_PROMPT then .ok (.str "ok")
                      else .error "unreachable"
          | _ => .error "unreachable") := by
  have h := c10_default_system_prompt [("input", .str "hi")] (by decide) (by decide)
  refine ⟨h.1, h.2 _ _ ?_⟩
  intro i
  rfl

end AWSBedrock
